import Mathlib

/-!
Verification of the Nexus_AgentHack backend orchestration core.

This file gives a shallow embedding, in Lean 4, of the provider-fallback and
result-extraction logic of the repository's two backend variants:

* `src/backend/main.py` — the Google/Mistral variant: its `/query` handler
  (`process_query`), `extract_result_from_run` and `extract_tools_used`;
* `src/backend/main_robust.py` — the Mistral/OpenAI variant: its
  `execute_with_retry` retry loop and `/api/query` handler (`process_query`).

Loosely-typed Python objects with optional attributes are modelled as Lean
structures with `Option` fields (`none` covers both "attribute absent" and
"attribute is None", which the source treats identically via
`hasattr(...) and ...` chains).  Python string truthiness is modelled
explicitly: an empty string is falsy.  Wall-clock time is abstracted away:
`time.sleep` calls are recorded as a list of requested delays and the polling
loop is modelled by reading the run's (static) terminal state directly.
Provider SDK calls are modelled as supplied behaviours of type
`Except String _` (an exception message, or the returned run object).
-/

/-! ### Python string helpers -/

/-- Membership test `needle in hay` on Python strings, on the char-list level. -/
def occursIn (needle : List Char) : List Char → Bool
  | [] => needle.isEmpty
  | c :: rest => List.isPrefixOf needle (c :: rest) || occursIn needle rest

/-- Python's `needle in hay` substring containment. -/
def pyContains (hay needle : String) : Bool :=
  occursIn needle.toList hay.toList

/-- Python's `s.lower()` (ASCII case folding suffices for the patterns used). -/
def pyLower (s : String) : String :=
  String.mk (s.toList.map Char.toLower)

/-- Python's whitespace characters as recognised by `str.strip()` (ASCII subset). -/
def isPySpace (c : Char) : Bool :=
  c == ' ' || c == '\t' || c == '\n' || c == '\r' || c == '\x0b' || c == '\x0c'

/-- Models `not s.strip()`: `true` iff the string is empty or whitespace-only. -/
def isBlank (s : String) : Bool :=
  s.toList.all isPySpace

/-- Python truthiness filter on an optional string attribute: `some s` only when
the attribute is present, not `None`, and non-empty. -/
def truthy : Option String → Option String
  | some s => if s = "" then none else some s
  | none => none

/-! ### main.py — run payload model and result extraction

`src/backend/main.py` probes the run object returned by `portia_instance.run`
with `hasattr` chains.  An `Output` models the Portia step/final output objects
(with optional `summary`/`value`); absent attributes and `None` values are both
`none`. -/

/-- A Portia output object as probed by `main.py` (`summary` / `value`). -/
structure Output where
  summary : Option String
  value : Option String
deriving DecidableEq, Repr

/-- The `run.outputs` object: optional `final_output` and the `step_outputs`
mapping in insertion order (an absent / `None` / empty mapping is `[]`). -/
structure RunOutputs where
  final_output : Option Output
  step_outputs : List (String × Output)
deriving DecidableEq, Repr

/-- A clarification dict as consumed by `main.py` (`.get` with defaults). -/
structure PyClar where
  type : Option String
  message : Option String
  details : Option (List (String × String))
  action_required : Option String
deriving DecidableEq, Repr

/-- The run object of `main.py`'s `/query` handler: the fields probed by
`extract_result_from_run` / `extract_tools_used` (`result`, `outputs`) plus the
fields read by the handler itself (`state`, `clarifications`, `error`). -/
structure PlanRun where
  result : Option String
  outputs : Option RunOutputs
  state : String
  clarifications : List PyClar
  error : Option String
deriving DecidableEq, Repr

/-- `extract_result_from_run` (src/backend/main.py, lines 651–693).
Method 1: `run.result` whenever present and not `None` (any value, `str`-ed).
Method 2: `run.outputs.final_output`, preferring truthy `summary` then truthy
`value`.  Method 3: `run.outputs.step_outputs["$result"]`, same preference.
Otherwise `None`. -/
def extract_result_from_run (run : PlanRun) : Option String :=
  match run.result with
  | some v => some v
  | none =>
    match run.outputs with
    | none => none
    | some outs =>
      let fromFinal : Option String :=
        match outs.final_output with
        | some fo =>
          (match truthy fo.summary with
           | some s => some s
           | none => truthy fo.value)
        | none => none
      match fromFinal with
      | some s => some s
      | none =>
        match List.lookup "$result" outs.step_outputs with
        | some so =>
          (match truthy so.summary with
           | some s => some s
           | none => truthy so.value)
        | none => none

/-- The accumulation loop of `extract_tools_used`: append every step-output
key other than `"$result"`, in mapping order. -/
def toolsLoop (steps : List (String × Output)) : List String :=
  steps.foldl (fun acc kv => if kv.1 != "$result" then acc ++ [kv.1] else acc) []

/-- `extract_tools_used` (src/backend/main.py, lines 695–709): collect the
step-output keys other than `"$result"` in mapping order; return `None` for an
empty collection. -/
def extract_tools_used (run : PlanRun) : Option (List String) :=
  let tools_used : List String :=
    match run.outputs with
    | some outs => toolsLoop outs.step_outputs
    | none => []
  if tools_used = [] then none else some tools_used

/-- The step-output keys other than `"$result"`, in mapping order (the
characterisation used to state properties of `extract_tools_used`). -/
def toolStepKeys (run : PlanRun) : List String :=
  match run.outputs with
  | some outs => (outs.step_outputs.map Prod.fst).filter (fun k => k != "$result")
  | none => []

/-- First present candidate of a priority list (first match wins). -/
def firstSome : List (Option String) → Option String
  | [] => none
  | some x :: _ => some x
  | none :: rest => firstSome rest

/-- Nested final-output summary candidate (present and non-empty). -/
def finalOutputSummary (run : PlanRun) : Option String :=
  run.outputs.bind fun o => o.final_output.bind fun fo => truthy fo.summary

/-- Nested final-output value candidate (present and non-empty). -/
def finalOutputValue (run : PlanRun) : Option String :=
  run.outputs.bind fun o => o.final_output.bind fun fo => truthy fo.value

/-- Step-outputs `$result` summary candidate (present and non-empty). -/
def stepResultSummary (run : PlanRun) : Option String :=
  run.outputs.bind fun o =>
    (List.lookup "$result" o.step_outputs).bind fun so => truthy so.summary

/-- Step-outputs `$result` value candidate (present and non-empty). -/
def stepResultValue (run : PlanRun) : Option String :=
  run.outputs.bind fun o =>
    (List.lookup "$result" o.step_outputs).bind fun so => truthy so.value

/-- Modelled from the claim's words (C1, as stated): top-level `"result"` is
used only when present **and non-empty**; else final-output summary/value; else
the `$result` step entry with the same preference. -/
def extractSpecClaimed (run : PlanRun) : Option String :=
  firstSome [truthy run.result, finalOutputSummary run, finalOutputValue run,
             stepResultSummary run, stepResultValue run]

/-- Modelled from the amended claim: top-level `"result"` is used whenever
present and not `None` — even when empty; the remaining priority order is
unchanged. -/
def extractSpecAmended (run : PlanRun) : Option String :=
  firstSome [run.result, finalOutputSummary run, finalOutputValue run,
             stepResultSummary run, stepResultValue run]

/-- A payload carrying an empty top-level `result` together with a non-empty
nested final-output summary: the input separating the code from claim C1. -/
def c1Run : PlanRun :=
  { result := some ""
    outputs := some { final_output := some { summary := some "hello", value := none }
                      step_outputs := [] }
    state := "COMPLETE"
    clarifications := []
    error := none }

/-- C1 (counterexample): on a payload whose top-level `"result"` is present but
empty and whose nested final output has summary `"hello"`, the claimed priority
order yields `"hello"`, but `extract_result_from_run` returns the empty
top-level result verbatim — the code tests `run.result is not None`, not
non-emptiness. -/
theorem c1_extract_empty_result_counterexample :
    extractSpecClaimed c1Run = some "hello" ∧
    extract_result_from_run c1Run = some "" := by
  constructor <;> rfl

/-- C1 (amended): result extraction follows the strict priority order with the
top-level `"result"` field used whenever present and not `None` (even when
empty); else the final-output summary, else its value (each when present and
non-empty); else the `$result` step-output entry with the same summary-then-value
preference; else no result. -/
theorem c1_extract_priority_order (run : PlanRun) :
    extract_result_from_run run = extractSpecAmended run := by
  obtain ⟨res, outs, state, clars, err⟩ := run
  cases res with
  | some v => rfl
  | none =>
    cases outs with
    | none => rfl
    | some o =>
      obtain ⟨fo, steps⟩ := o
      cases fo with
      | none =>
        simp only [extract_result_from_run, extractSpecAmended, firstSome,
          finalOutputSummary, finalOutputValue, stepResultSummary, stepResultValue,
          Option.bind_some, Option.bind_none]
        cases hl : List.lookup "$result" steps with
        | none => simp [hl, firstSome]
        | some so =>
          cases hs : truthy so.summary with
          | some s => simp [hl, hs, firstSome]
          | none =>
            cases hv : truthy so.value with
            | some v => simp [hl, hs, hv, firstSome]
            | none => simp [hl, hs, hv, firstSome]
      | some f =>
        simp only [extract_result_from_run, extractSpecAmended, firstSome,
          finalOutputSummary, finalOutputValue, stepResultSummary, stepResultValue,
          Option.bind_some, Option.bind_none]
        cases hs : truthy f.summary with
        | some s => simp [hs, firstSome]
        | none =>
          cases hv : truthy f.value with
          | some v => simp [hs, hv, firstSome]
          | none =>
            cases hl : List.lookup "$result" steps with
            | none => simp [hs, hv, hl, firstSome]
            | some so =>
              cases hs2 : truthy so.summary with
              | some s => simp [hs, hv, hl, hs2, firstSome]
              | none =>
                cases hv2 : truthy so.value with
                | some v => simp [hs, hv, hl, hs2, hv2, firstSome]
                | none => simp [hs, hv, hl, hs2, hv2, firstSome]

/-! ### main.py — exception safety of extraction (C9)

`extract_result_from_run` wraps its whole attribute-probing body in
`try/except Exception: return None`.  To state exception safety, run objects
are remodelled with each attribute read as an `Except String _` computation
(an attribute access on a dynamic object may raise); the probing body runs in
the `Except` monad and the wrapper converts any raised exception to `none`. -/

/-- An output object whose attribute reads may raise. -/
structure OutputDyn where
  summary : Except String (Option String)
  value : Except String (Option String)

/-- A `run.outputs` object whose attribute reads may raise. -/
structure RunOutputsDyn where
  final_output : Except String (Option OutputDyn)
  step_outputs : Except String (List (String × OutputDyn))

/-- A run object whose attribute reads may raise. -/
structure PlanRunDyn where
  result : Except String (Option String)
  outputs : Except String (Option RunOutputsDyn)

/-- The step-outputs probing of `extract_result_from_run` (Method 3), with
raising attribute reads. -/
def extractStepPart (outs : RunOutputsDyn) : Except String (Option String) := do
  let steps ← outs.step_outputs
  match List.lookup "$result" steps with
  | some so =>
    let s ← so.summary
    match truthy s with
    | some t => return some t
    | none =>
      let v ← so.value
      return truthy v
  | none => return none

/-- The `try`-block body of `extract_result_from_run` with raising attribute
reads: any read may abort the whole computation with an exception. -/
def extractBody (run : PlanRunDyn) : Except String (Option String) := do
  let r ← run.result
  match r with
  | some v => return some v
  | none =>
    let o ← run.outputs
    match o with
    | none => return none
    | some outs =>
      let fo ← outs.final_output
      match fo with
      | some f =>
        let s ← f.summary
        match truthy s with
        | some t => return some t
        | none =>
          let v ← f.value
          match truthy v with
          | some t => return some t
          | none => extractStepPart outs
      | none => extractStepPart outs

/-- `extract_result_from_run` over dynamic run objects: the `except` clause of
the source converts every raised exception to the `None` outcome. -/
def extract_result_from_run_dyn (run : PlanRunDyn) : Option String :=
  match extractBody run with
  | .ok v => v
  | .error _ => none

/-- C9 (confirmed): `extract_result_from_run` is total over arbitrary run
objects — whenever probing the run's attributes raises, the exception is caught
and converted to `none`; in every case the function returns either a string or
`none`. -/
theorem c9_extract_total_and_catches (run : PlanRunDyn) :
    (∀ e, extractBody run = Except.error e → extract_result_from_run_dyn run = none) ∧
    (extract_result_from_run_dyn run = none ∨
      ∃ s, extract_result_from_run_dyn run = some s) := by
  constructor
  · intro e he
    simp [extract_result_from_run_dyn, he]
  · cases hb : extractBody run with
    | error e => left; simp [extract_result_from_run_dyn, hb]
    | ok v =>
      cases v with
      | none => left; simp [extract_result_from_run_dyn, hb]
      | some s => right; exact ⟨s, by simp [extract_result_from_run_dyn, hb]⟩

/-- A run object whose very first attribute read raises. -/
def c9BadRun : PlanRunDyn :=
  { result := Except.error "attribute probe raised"
    outputs := Except.ok none }

/-- C9 (witness): a run whose `result` attribute read raises is mapped to the
`none` outcome. -/
theorem c9_extract_total_and_catches_witness :
    extract_result_from_run_dyn c9BadRun = none :=
  (c9_extract_total_and_catches c9BadRun).1 "attribute probe raised" rfl

/-! ### main.py — tools-used extraction (C10) -/

/-- Accumulating loop of `extract_tools_used` rewritten as a filter over the
key list. -/
theorem tools_foldl_eq_filter (l : List (String × Output)) (acc : List String) :
    l.foldl (fun a kv => if kv.1 != "$result" then a ++ [kv.1] else a) acc
      = acc ++ (l.map Prod.fst).filter (fun k => k != "$result") := by
  induction l generalizing acc with
  | nil => simp
  | cons hd tl ih =>
    simp only [List.foldl_cons, List.map_cons, List.filter_cons]
    cases hb : hd.1 != "$result" with
    | true =>
      simp only [eq_self_iff_true, if_true]
      rw [ih (acc ++ [hd.1])]
      simp
    | false =>
      simp only [Bool.false_eq_true, if_false]
      exact ih acc

/-- The tools loop computes the filtered key list. -/
theorem toolsLoop_eq_filter (steps : List (String × Output)) :
    toolsLoop steps = (steps.map Prod.fst).filter (fun k => k != "$result") := by
  unfold toolsLoop
  rw [tools_foldl_eq_filter, List.nil_append]

/-- C10 (confirmed): `extract_tools_used` returns exactly the step-output keys
other than `"$result"`, in mapping order, when there are any — and `none`
(never `some []`) otherwise; so a run that used no tools yields a null
`tools_used`, not an empty sequence. -/
theorem c10_tools_used_nonempty_or_none (run : PlanRun) :
    extract_tools_used run
        = (if toolStepKeys run = [] then none else some (toolStepKeys run)) ∧
    extract_tools_used run ≠ some [] := by
  have hmain : extract_tools_used run
      = (if toolStepKeys run = [] then none else some (toolStepKeys run)) := by
    obtain ⟨res, outs0, st, cl, er⟩ := run
    cases outs0 with
    | none => rfl
    | some outs => simp only [extract_tools_used, toolStepKeys, toolsLoop_eq_filter]
  refine ⟨hmain, ?_⟩
  rw [hmain]
  cases hks : toolStepKeys run with
  | nil => simp
  | cons k ks => simp

/-- C10 (witness): a run whose only step output is the `$result` entry yields
`tools_used = none`, while a run with a tool step yields that key. -/
theorem c10_tools_used_nonempty_or_none_witness :
    extract_tools_used
        { result := none
          outputs := some { final_output := none
                            step_outputs := [("$result", { summary := none, value := none })] }
          state := "COMPLETE", clarifications := [], error := none } = none ∧
    extract_tools_used
        { result := none
          outputs := some { final_output := none
                            step_outputs := [("weather_tool", { summary := none, value := none }),
                                             ("$result", { summary := none, value := none })] }
          state := "COMPLETE", clarifications := [], error := none }
      = some ["weather_tool"] := by
  constructor
  · have h := (c10_tools_used_nonempty_or_none
      { result := none
        outputs := some { final_output := none
                          step_outputs := [("$result", { summary := none, value := none })] }
        state := "COMPLETE", clarifications := [], error := none }).1
    simpa using h
  · have h := (c10_tools_used_nonempty_or_none
      { result := none
        outputs := some { final_output := none
                          step_outputs := [("weather_tool", { summary := none, value := none }),
                                           ("$result", { summary := none, value := none })] }
        state := "COMPLETE", clarifications := [], error := none }).1
    simpa using h

/-! ### main_robust.py — retry loop with exponential backoff

`execute_with_retry` (src/backend/main_robust.py, lines 211–243) runs
`for attempt in range(max_retries + 1)`, calling `portia_client.run(query)`
each iteration.  A raised exception whose text contains `"429"` or
(case-insensitively) `"capacity exceeded"` is a rate-limit error; when
`attempt < max_retries` the loop sleeps `(2 ** attempt) * 5` seconds and
retries, otherwise it returns the failure.  A provider is modelled as a
function from the attempt number to the call's outcome; the embedding records
the number of calls made and the sleeps requested. -/

/-- The plan-run object of `main_robust.py`: its fields are read directly
(no `hasattr` guards) when assembling the success response. -/
structure RobustOutput where
  value : String
  summary : String
deriving DecidableEq, Repr

/-- `plan_run.outputs` as read by `main_robust.py`. -/
structure RobustOutputs where
  final_output : RobustOutput
  step_outputs : List (String × RobustOutput)
  clarifications : List String
deriving DecidableEq, Repr

/-- A completed plan run as read by `main_robust.py`'s success path. -/
structure RobustPlanRun where
  id : String
  plan_id : String
  state : String
  current_step_index : Nat
  outputs : RobustOutputs
deriving DecidableEq, Repr

/-- One provider behaviour: attempt number ↦ raised exception text or plan run. -/
def Provider : Type := Nat → Except String RobustPlanRun

/-- Classification of a raised error as a rate-limit error:
`"429" in error_str or "capacity exceeded" in error_str.lower()`. -/
def isRateLimitError (e : String) : Bool :=
  pyContains e "429" || pyContains (pyLower e) "capacity exceeded"

/-- Result dictionary of `execute_with_retry`, plus the recorded calls and
sleeps: `.ok plan_run` models the `success: True` dictionary, `.error e` the
`success: False` one. -/
structure ExecResult where
  outcome : Except String RobustPlanRun
  calls : Nat
  sleeps : List Nat
deriving Repr

/-- The `"success"` entry of the result dictionary. -/
def ExecResult.success (r : ExecResult) : Bool :=
  match r.outcome with
  | .ok _ => true
  | .error _ => false

/-- The `for attempt in range(max_retries + 1)` loop of `execute_with_retry`,
by structural recursion on the remaining iterations.  A successful call
returns at once; a rate-limited error with `attempt < max_retries` sleeps
`(2 ** attempt) * 5` and continues; any other error returns the failure.
Exhausting the range yields the `"Max retries exceeded"` failure. -/
def retryGo (provider : Provider) (max_retries : Nat) :
    Nat → Nat → ExecResult
  | _, 0 => { outcome := .error "Max retries exceeded", calls := 0, sleeps := [] }
  | attempt, r + 1 =>
    match provider attempt with
    | .ok plan_run => { outcome := .ok plan_run, calls := 1, sleeps := [] }
    | .error e =>
      if isRateLimitError e then
        if attempt < max_retries then
          { outcome := (retryGo provider max_retries (attempt + 1) r).outcome,
            calls := (retryGo provider max_retries (attempt + 1) r).calls + 1,
            sleeps := (2 ^ attempt) * 5
              :: (retryGo provider max_retries (attempt + 1) r).sleeps }
        else { outcome := .error e, calls := 1, sleeps := [] }
      else { outcome := .error e, calls := 1, sleeps := [] }

/-- `execute_with_retry` (src/backend/main_robust.py, lines 211–243); the
source's default `max_retries` is 2. -/
def execute_with_retry (provider : Provider) (max_retries : Nat := 2) : ExecResult :=
  retryGo provider max_retries 0 (max_retries + 1)

/-- One-step unfolding of the retry loop on a provider that raises on every
attempt. -/
theorem retryGo_error_step (err : Nat → String) (max_retries attempt r : Nat) :
    retryGo (fun n => Except.error (err n)) max_retries attempt (r + 1)
      = if isRateLimitError (err attempt) then
          if attempt < max_retries then
            { outcome := (retryGo (fun n => Except.error (err n)) max_retries
                (attempt + 1) r).outcome,
              calls := (retryGo (fun n => Except.error (err n)) max_retries
                (attempt + 1) r).calls + 1,
              sleeps := (2 ^ attempt) * 5
                :: (retryGo (fun n => Except.error (err n)) max_retries
                  (attempt + 1) r).sleeps }
          else { outcome := .error (err attempt), calls := 1, sleeps := [] }
        else { outcome := .error (err attempt), calls := 1, sleeps := [] } := rfl

/-- Behaviour of the retry loop on a provider that raises a rate-limit error
on every attempt, starting from any attempt index: it performs all remaining
attempts, sleeping `(2 ^ attempt) * 5` after each non-final one, and returns
the last attempt's error. -/
theorem retryGo_rate_limited (err : Nat → String)
    (h : ∀ n, isRateLimitError (err n) = true) (max_retries : Nat) :
    ∀ (r attempt : Nat), attempt + r = max_retries →
      retryGo (fun n => Except.error (err n)) max_retries attempt (r + 1)
        = { outcome := .error (err max_retries), calls := r + 1,
            sleeps := (List.range r).map (fun i => (2 ^ (attempt + i)) * 5) } := by
  intro r
  induction r with
  | zero =>
    intro attempt hat
    rw [Nat.add_zero] at hat
    subst hat
    simp [retryGo, h, Nat.lt_irrefl]
  | succ r ih =>
    intro attempt hat
    have hlt : attempt < max_retries := by omega
    have hrec := ih (attempt + 1) (by omega)
    rw [retryGo_error_step, h attempt]
    simp only [eq_self_iff_true, if_true]
    rw [if_pos hlt, hrec]
    congr 1
    rw [List.range_succ_eq_map, List.map_cons, List.map_map]
    congr 1
    show List.map (fun i => 2 ^ (attempt + 1 + i) * 5) (List.range r)
        = List.map ((fun i => 2 ^ (attempt + i) * 5) ∘ Nat.succ) (List.range r)
    apply List.map_congr_left
    intro a ha
    simp only [Function.comp_apply]
    have hx : attempt + 1 + a = attempt + Nat.succ a := by omega
    rw [hx]

/-- C2 (counterexample): with the default `max_retries = 2` and a provider
that always raises `"429"`, the loop calls the provider 3 times — the source
iterates `range(max_retries + 1)` — not the claimed `max_retries = 2` times. -/
theorem c2_retry_count_counterexample :
    (execute_with_retry (fun _ => Except.error "429") 2).calls = 3 ∧
    (execute_with_retry (fun _ => Except.error "429") 2).calls ≠ 2 := by
  constructor <;> decide

/-- C2 (amended): on a provider that always raises a rate-limit error, the
retry loop calls the provider exactly `max_retries + 1` times, sleeping the
strictly increasing delay `base_delay * 2 ^ attempt` (with `base_delay = 5`)
between consecutive attempts, and gives the provider up with a failure. -/
theorem c2_rate_limit_retries_exhaust (err : Nat → String) (max_retries : Nat)
    (h : ∀ n, isRateLimitError (err n) = true) :
    (execute_with_retry (fun n => Except.error (err n)) max_retries).calls
        = max_retries + 1 ∧
    (execute_with_retry (fun n => Except.error (err n)) max_retries).sleeps
        = (List.range max_retries).map (fun n => (2 ^ n) * 5) ∧
    ((execute_with_retry (fun n => Except.error (err n)) max_retries).sleeps).Pairwise (· < ·) ∧
    (execute_with_retry (fun n => Except.error (err n)) max_retries).success = false := by
  have hmain := retryGo_rate_limited err h max_retries max_retries 0 (by omega)
  have hexec : execute_with_retry (fun n => Except.error (err n)) max_retries
      = { outcome := .error (err max_retries), calls := max_retries + 1,
          sleeps := (List.range max_retries).map (fun i => (2 ^ (0 + i)) * 5) } := by
    rw [execute_with_retry, hmain]
  have hsleeps : (List.range max_retries).map (fun i => (2 ^ (0 + i)) * 5)
      = (List.range max_retries).map (fun n => (2 ^ n) * 5) := by
    apply List.map_congr_left
    intro a _
    rw [Nat.zero_add]
  refine ⟨?_, ?_, ?_, ?_⟩
  · rw [hexec]
  · rw [hexec]; exact hsleeps
  · rw [hexec, hsleeps]
    rw [List.pairwise_map]
    refine List.Pairwise.imp ?_ (List.pairwise_lt_range max_retries)
    intro a b hab
    have hpow : (2 : Nat) ^ a < 2 ^ b := Nat.pow_lt_pow_right (by omega) hab
    exact Nat.mul_lt_mul_of_lt_of_le hpow (Nat.le_refl 5) (by omega)
  · rw [hexec]; rfl

/-- C2 (witness): the always-`"429"` provider with `max_retries = 2` is called
3 times with sleeps `[5, 10]`, strictly increasing, and fails. -/
theorem c2_rate_limit_retries_exhaust_witness :
    (execute_with_retry (fun _ => Except.error "429") 2).calls = 2 + 1 ∧
    (execute_with_retry (fun _ => Except.error "429") 2).sleeps
        = (List.range 2).map (fun n => (2 ^ n) * 5) ∧
    ((execute_with_retry (fun _ => Except.error "429") 2).sleeps).Pairwise (· < ·) ∧
    (execute_with_retry (fun _ => Except.error "429") 2).success = false :=
  c2_rate_limit_retries_exhaust (fun _ => "429") 2 (fun _ => rfl)

/-! ### main_robust.py — the `/api/query` handler

`process_query` (src/backend/main_robust.py, lines 245–315).  The handler
first rejects blank queries by raising `HTTPException(400)`.  It then tries
Mistral unless `model_preference == "openai"`, falls back to OpenAI when the
first result is missing or unsuccessful unless `model_preference == "mistral"`,
and finally builds the response.  Pydantic's `QueryRequest` declares
`model_preference: Optional[str] = "mistral"`, so a request that does not
supply the field gets `"mistral"`.  The embedding records how many times each
provider's `run` was invoked (including retries). -/

/-- Pydantic default for `model_preference` (main_robust.py, line 40). -/
def defaultModelPreference : Option String := some "mistral"

/-- The `response_data` dictionary assembled on success (lines 291–307). -/
structure RobustResponseData where
  plan_run_id : String
  plan_id : String
  state : String
  current_step_index : Nat
  final_output : RobustOutput
  step_outputs : List (String × RobustOutput)
  clarifications : List String
deriving DecidableEq, Repr

/-- `QueryResponse` of main_robust.py (execution time omitted — wall-clock
time is out of the embedding's scope). -/
structure RobustResponse where
  success : Bool
  plan_run_id : Option String
  result : Option RobustResponseData
  error : Option String
  model_used : Option String
deriving DecidableEq, Repr

/-- What the handler hands back to FastAPI: a raised `HTTPException` with its
status code and detail, or a returned `QueryResponse`. -/
inductive RobustResult where
  | httpError (code : Nat) (detail : String)
  | response (r : RobustResponse)
deriving DecidableEq, Repr

/-- The handler's observable behaviour: its result plus the number of
`portia_client.run` invocations per provider. -/
structure RobustTrace where
  result : RobustResult
  mistral_calls : Nat
  openai_calls : Nat
deriving DecidableEq, Repr

/-- First block: try Mistral unless `model_preference == "openai"` and
`portia_mistral` is available (lines 257–266). -/
def mistralAttempt (pm : Option Provider) (pref : Option String) : Option ExecResult :=
  if pref = some "openai" then none
  else
    match pm with
    | some m => some (execute_with_retry m)
    | none => none

/-- `not result or not result["success"]` — fallback trigger (line 269). -/
def needsFallback (mRes : Option ExecResult) : Bool :=
  match mRes with
  | none => true
  | some r => !r.success

/-- Second block: fall back to OpenAI when needed, unless
`model_preference == "mistral"` or `portia_openai` is unavailable
(lines 268–277). -/
def openaiAttempt (po : Option Provider) (pref : Option String)
    (mRes : Option ExecResult) : Option ExecResult :=
  if needsFallback mRes = false then none
  else if pref = some "mistral" then none
  else
    match po with
    | some o => some (execute_with_retry o)
    | none => none

/-- `model_used`: `"mistral"` when Mistral was attempted, `"openai"` or the
chained `"mistral->openai"` when OpenAI was attempted (lines 261, 272). -/
def modelUsedLabel (mRes oRes : Option ExecResult) : Option String :=
  match oRes with
  | some _ =>
    (match mRes with
     | some _ => some "mistral->openai"
     | none => some "openai")
  | none =>
    (match mRes with
     | some _ => some "mistral"
     | none => none)

/-- The `result` variable after both blocks: the OpenAI result overwrites the
Mistral one when the fallback ran. -/
def finalResult (mRes oRes : Option ExecResult) : Option ExecResult :=
  match oRes with
  | some r => some r
  | none => mRes

/-- Number of `run` invocations recorded by an optional attempt. -/
def attemptCalls (res : Option ExecResult) : Nat :=
  match res with
  | some r => r.calls
  | none => 0

/-- The success-path `response_data` dictionary (lines 291–307). -/
def responseDataOf (pr : RobustPlanRun) : RobustResponseData :=
  { plan_run_id := pr.id
    plan_id := pr.plan_id
    state := pr.state
    current_step_index := pr.current_step_index
    final_output := pr.outputs.final_output
    step_outputs := pr.outputs.step_outputs
    clarifications := pr.outputs.clarifications }

/-- Final response assembly (lines 279–315): failure when no result or an
unsuccessful one (error from the result dictionary, or
`"No AI providers available"` when no provider was attempted), success
otherwise. -/
def responseOf (finalRes : Option ExecResult) (label : Option String) : RobustResult :=
  match finalRes with
  | none =>
    .response { success := false, plan_run_id := none, result := none,
                error := some "No AI providers available", model_used := label }
  | some r =>
    match r.outcome with
    | .error e =>
      .response { success := false, plan_run_id := none, result := none,
                  error := some e, model_used := label }
    | .ok pr =>
      .response { success := true, plan_run_id := some pr.id,
                  result := some (responseDataOf pr), error := none,
                  model_used := label }

/-- `process_query` of src/backend/main_robust.py (lines 245–315): the
`/api/query` handler, over the two optional provider behaviours, the query
string and the request's `model_preference`. -/
def process_query_robust (pm po : Option Provider) (query : String)
    (pref : Option String) : RobustTrace :=
  if isBlank query then
    { result := .httpError 400 "Query cannot be empty",
      mistral_calls := 0, openai_calls := 0 }
  else
    { result := responseOf (finalResult (mistralAttempt pm pref)
        (openaiAttempt po pref (mistralAttempt pm pref)))
        (modelUsedLabel (mistralAttempt pm pref)
          (openaiAttempt po pref (mistralAttempt pm pref))),
      mistral_calls := attemptCalls (mistralAttempt pm pref),
      openai_calls := attemptCalls (openaiAttempt po pref (mistralAttempt pm pref)) }

/-- Every run of the retry loop calls the provider at least once. -/
theorem execute_with_retry_calls_pos (p : Provider) (mr : Nat) :
    1 ≤ (execute_with_retry p mr).calls := by
  rw [execute_with_retry]
  cases h : p 0 with
  | ok pr => simp [retryGo, h]
  | error e =>
    by_cases hr : isRateLimitError e
    · by_cases hlt : (0 : Nat) < mr
      · simp [retryGo, h, hr, hlt]
      · simp [retryGo, h, hr, hlt]
    · simp [retryGo, h, hr]

/-- The failure response produced when no provider was attempted at all. -/
def noProvidersResponse : RobustResponse :=
  { success := false, plan_run_id := none, result := none,
    error := some "No AI providers available", model_used := none }

/-- The success response built from a plan run and a provider label. -/
def successResponse (pr : RobustPlanRun) (label : Option String) : RobustResponse :=
  { success := true, plan_run_id := some pr.id, result := some (responseDataOf pr),
    error := none, model_used := label }

/-- The failure response carrying a provider error and a provider label. -/
def failureResponse (e : String) (label : Option String) : RobustResponse :=
  { success := false, plan_run_id := none, result := none,
    error := some e, model_used := label }

/-- With `model_preference == "mistral"`, the OpenAI fallback block never runs. -/
theorem openaiAttempt_pref_mistral (po : Option Provider) (mRes : Option ExecResult) :
    openaiAttempt po (some "mistral") mRes = none := by
  unfold openaiAttempt
  by_cases h : needsFallback mRes = false
  · simp [h]
  · simp [h]

/-- With `model_preference == "openai"`, the Mistral block never runs. -/
theorem mistralAttempt_pref_openai (pm : Option Provider) :
    mistralAttempt pm (some "openai") = none := by
  simp [mistralAttempt]

/-- C6 (confirmed): naming a specific provider isolates it.  With
`model_preference = "mistral"` OpenAI is never invoked; with
`model_preference = "openai"` Mistral is never invoked; and when the named
provider is not configured the outcome is the provider-unavailable failure
(`success = false`, `"No AI providers available"`) with no provider run
submitted and no silent substitution. -/
theorem c6_named_provider_isolation (pm po : Option Provider) (q : String)
    (hq : isBlank q = false) :
    (process_query_robust pm po q (some "mistral")).openai_calls = 0 ∧
    (process_query_robust pm po q (some "openai")).mistral_calls = 0 ∧
    process_query_robust pm none q (some "openai")
      = { result := .response noProvidersResponse,
          mistral_calls := 0, openai_calls := 0 } ∧
    process_query_robust none po q (some "mistral")
      = { result := .response noProvidersResponse,
          mistral_calls := 0, openai_calls := 0 } := by
  refine ⟨?_, ?_, ?_, ?_⟩
  · simp [process_query_robust, hq, openaiAttempt_pref_mistral, attemptCalls]
  · simp [process_query_robust, hq, mistralAttempt_pref_openai, attemptCalls]
  · simp [process_query_robust, hq, mistralAttempt_pref_openai, openaiAttempt,
      needsFallback, finalResult, modelUsedLabel, responseOf, attemptCalls,
      noProvidersResponse]
  · simp [process_query_robust, hq, mistralAttempt, openaiAttempt_pref_mistral,
      finalResult, modelUsedLabel, responseOf, attemptCalls, noProvidersResponse]

/-- C6 (witness): with a configured Mistral provider, `model_preference =
"mistral"` yields no OpenAI calls, and requesting the unconfigured provider
yields the unavailability failure without any run. -/
theorem c6_named_provider_isolation_witness :
    (process_query_robust (some (fun _ => Except.error "boom")) none "hi"
        (some "mistral")).openai_calls = 0 ∧
    (process_query_robust (some (fun _ => Except.error "boom")) none "hi"
        (some "openai")).mistral_calls = 0 ∧
    process_query_robust (some (fun _ => Except.error "boom")) none "hi"
        (some "openai")
      = { result := .response noProvidersResponse,
          mistral_calls := 0, openai_calls := 0 } ∧
    process_query_robust none none "hi" (some "mistral")
      = { result := .response noProvidersResponse,
          mistral_calls := 0, openai_calls := 0 } := by
  have h := c6_named_provider_isolation (some (fun _ => Except.error "boom")) none
    "hi" (by decide)
  exact ⟨h.1, h.2.1, h.2.2.1, (c6_named_provider_isolation none none "hi" (by decide)).2.2.2⟩

/-- C7 (confirmed): when the first provider's retry loop fails and the OpenAI
fallback run succeeds (under a preference restricting neither provider, e.g.
`"auto"`), the outcome is `success = true` with the chained label
`"mistral->openai"`; when the Mistral run itself succeeds, the label is
`"mistral"` alone and OpenAI is never invoked. -/
theorem c7_chained_provider_label (m o : Provider) (q : String)
    (hq : isBlank q = false) :
    ((execute_with_retry m).success = false →
      ∀ pr, (execute_with_retry o).outcome = Except.ok pr →
        (process_query_robust (some m) (some o) q (some "auto")).result
          = .response (successResponse pr (some "mistral->openai"))) ∧
    (∀ pr, (execute_with_retry m).outcome = Except.ok pr →
      (process_query_robust (some m) (some o) q (some "auto")).result
        = .response (successResponse pr (some "mistral")) ∧
      (process_query_robust (some m) (some o) q (some "auto")).openai_calls = 0) := by
  constructor
  · intro hm pr ho
    simp [process_query_robust, hq, mistralAttempt, openaiAttempt, needsFallback,
      hm, finalResult, modelUsedLabel, responseOf, ho, successResponse]
  · intro pr hm
    have hsucc : (execute_with_retry m).success = true := by
      simp [ExecResult.success, hm]
    simp [process_query_robust, hq, mistralAttempt, openaiAttempt, needsFallback,
      hsucc, finalResult, modelUsedLabel, responseOf, hm, attemptCalls,
      successResponse]

/-- A first-attempt success returns at once: one call, no sleeps. -/
theorem execute_with_retry_first_ok (p : Provider) (pr : RobustPlanRun)
    (hp : p 0 = Except.ok pr) (mr : Nat) :
    execute_with_retry p mr = { outcome := .ok pr, calls := 1, sleeps := [] } := by
  simp [execute_with_retry, retryGo, hp]

/-- A first-attempt non-rate-limit error returns the failure at once. -/
theorem execute_with_retry_first_error (p : Provider) (e : String)
    (hp : p 0 = Except.error e) (he : isRateLimitError e = false) (mr : Nat) :
    execute_with_retry p mr = { outcome := .error e, calls := 1, sleeps := [] } := by
  simp [execute_with_retry, retryGo, hp, he]

/-- A plan run as returned by a succeeding provider. -/
def samplePlanRun : RobustPlanRun :=
  { id := "run-1"
    plan_id := "plan-1"
    state := "COMPLETE"
    current_step_index := 0
    outputs := { final_output := { value := "7", summary := "The answer is 7" }
                 step_outputs := []
                 clarifications := [] } }

/-- A provider whose every attempt raises a non-rate-limit error. -/
def alwaysFailProvider : Provider := fun _ => Except.error "boom"

/-- A provider whose every attempt returns `samplePlanRun`. -/
def alwaysOkProvider : Provider := fun _ => Except.ok samplePlanRun

/-- C7 (witness): a permanently failing Mistral followed by a succeeding
OpenAI yields the chained `"mistral->openai"` success; a succeeding Mistral
alone yields the `"mistral"` label with no OpenAI call. -/
theorem c7_chained_provider_label_witness :
    (process_query_robust (some alwaysFailProvider) (some alwaysOkProvider) "hi"
        (some "auto")).result
      = .response (successResponse samplePlanRun (some "mistral->openai")) ∧
    (process_query_robust (some alwaysOkProvider) (some alwaysOkProvider) "hi"
        (some "auto")).result
      = .response (successResponse samplePlanRun (some "mistral")) := by
  have hfail : execute_with_retry alwaysFailProvider
      = { outcome := .error "boom", calls := 1, sleeps := [] } :=
    execute_with_retry_first_error alwaysFailProvider "boom" rfl (by decide) 2
  have hok : execute_with_retry alwaysOkProvider
      = { outcome := .ok samplePlanRun, calls := 1, sleeps := [] } :=
    execute_with_retry_first_ok alwaysOkProvider samplePlanRun rfl 2
  constructor
  · exact (c7_chained_provider_label alwaysFailProvider alwaysOkProvider "hi"
      (by decide)).1 (by rw [hfail]; rfl) samplePlanRun (by rw [hok])
  · exact ((c7_chained_provider_label alwaysOkProvider alwaysOkProvider "hi"
      (by decide)).2 samplePlanRun (by rw [hok])).1

/-- C3 (amended): under `model_preference = "auto"` the full priority-ordered
provider list is used — Mistral is attempted first (its retry loop runs at
least one call) and, exactly when Mistral's retry loop fails, OpenAI is
attempted; but a request that does not supply `model_preference` gets the
pydantic default `"mistral"`, which disables the OpenAI fallback entirely. -/
theorem c3_auto_full_list_default_mistral (m o : Provider) (q : String)
    (hq : isBlank q = false) :
    (process_query_robust (some m) (some o) q (some "auto")).mistral_calls
        = (execute_with_retry m).calls ∧
    1 ≤ (process_query_robust (some m) (some o) q (some "auto")).mistral_calls ∧
    ((execute_with_retry m).success = false →
      (process_query_robust (some m) (some o) q (some "auto")).openai_calls
          = (execute_with_retry o).calls ∧
      1 ≤ (process_query_robust (some m) (some o) q (some "auto")).openai_calls) ∧
    ((execute_with_retry m).success = true →
      (process_query_robust (some m) (some o) q (some "auto")).openai_calls = 0) ∧
    (process_query_robust (some m) (some o) q defaultModelPreference).openai_calls
        = 0 := by
  refine ⟨?_, ?_, ?_, ?_, ?_⟩
  · simp [process_query_robust, hq, mistralAttempt, attemptCalls]
  · simp [process_query_robust, hq, mistralAttempt, attemptCalls,
      execute_with_retry_calls_pos]
  · intro hm
    constructor
    · simp [process_query_robust, hq, mistralAttempt, openaiAttempt, needsFallback,
        hm, attemptCalls]
    · simp [process_query_robust, hq, mistralAttempt, openaiAttempt, needsFallback,
        hm, attemptCalls, execute_with_retry_calls_pos]
  · intro hm
    simp [process_query_robust, hq, mistralAttempt, openaiAttempt, needsFallback,
      hm, attemptCalls]
  · simp [process_query_robust, hq, defaultModelPreference,
      openaiAttempt_pref_mistral, attemptCalls]

/-- C3 (counterexample): with a permanently failing Mistral, an available and
succeeding OpenAI, and the `model_preference` value a request gets when the
field is not supplied (the pydantic default `"mistral"`), the handler never
falls back: OpenAI is called zero times and the outcome is the Mistral
failure — not the full priority-ordered list the claim describes. -/
theorem c3_unset_preference_counterexample :
    process_query_robust (some alwaysFailProvider) (some alwaysOkProvider) "hi"
        defaultModelPreference
      = { result := .response (failureResponse "boom" (some "mistral")),
          mistral_calls := 1, openai_calls := 0 } := by
  have hq : isBlank "hi" = false := by decide
  have hfail := execute_with_retry_first_error alwaysFailProvider "boom" rfl
    (by decide) 2
  simp [process_query_robust, hq, defaultModelPreference, mistralAttempt,
    openaiAttempt_pref_mistral, attemptCalls, finalResult, modelUsedLabel,
    responseOf, hfail, failureResponse]

/-- C3 (witness): with an explicit `"auto"` preference, a failing Mistral and
a succeeding OpenAI, both providers are attempted once each. -/
theorem c3_auto_full_list_default_mistral_witness :
    (process_query_robust (some alwaysFailProvider) (some alwaysOkProvider) "hi"
        (some "auto")).mistral_calls = 1 ∧
    (process_query_robust (some alwaysFailProvider) (some alwaysOkProvider) "hi"
        (some "auto")).openai_calls = 1 := by
  have T := c3_auto_full_list_default_mistral alwaysFailProvider alwaysOkProvider
    "hi" (by decide)
  have hfail := execute_with_retry_first_error alwaysFailProvider "boom" rfl
    (by decide) 2
  have hok := execute_with_retry_first_ok alwaysOkProvider samplePlanRun rfl 2
  constructor
  · rw [T.1, hfail]
  · have h2 := T.2.2.1 (by rw [hfail]; rfl)
    rw [h2.1, hok]

/-- One-step unfolding of the retry loop on a provider that always raises the
same error. -/
theorem retryGo_const_step (e : String) (max_retries attempt r : Nat) :
    retryGo (fun _ => Except.error e) max_retries attempt (r + 1)
      = if isRateLimitError e then
          if attempt < max_retries then
            { outcome := (retryGo (fun _ => Except.error e) max_retries
                (attempt + 1) r).outcome,
              calls := (retryGo (fun _ => Except.error e) max_retries
                (attempt + 1) r).calls + 1,
              sleeps := (2 ^ attempt) * 5
                :: (retryGo (fun _ => Except.error e) max_retries
                  (attempt + 1) r).sleeps }
          else { outcome := .error e, calls := 1, sleeps := [] }
        else { outcome := .error e, calls := 1, sleeps := [] } := rfl

/-- A provider that always raises `e` makes the whole retry loop fail with
`e`, rate-limited or not. -/
theorem retryGo_const_error (e : String) (max_retries : Nat) :
    ∀ (r attempt : Nat), attempt + r = max_retries →
      (retryGo (fun _ => Except.error e) max_retries attempt (r + 1)).outcome
        = Except.error e := by
  intro r
  induction r with
  | zero =>
    intro attempt hat
    rw [Nat.add_zero] at hat
    subst hat
    rw [retryGo_const_step]
    by_cases hr : isRateLimitError e
    · rw [hr]
      simp only [eq_self_iff_true, if_true]
      rw [if_neg (Nat.lt_irrefl _)]
    · have hf : isRateLimitError e = false := by
        revert hr; cases isRateLimitError e <;> simp
      rw [hf]
      simp only [Bool.false_eq_true, if_false]
  | succ r ih =>
    intro attempt hat
    have hlt : attempt < max_retries := by omega
    rw [retryGo_const_step]
    by_cases hr : isRateLimitError e
    · rw [hr]
      simp only [eq_self_iff_true, if_true]
      rw [if_pos hlt]
      exact ih (attempt + 1) (by omega)
    · have hf : isRateLimitError e = false := by
        revert hr; cases isRateLimitError e <;> simp
      rw [hf]
      simp only [Bool.false_eq_true, if_false]

/-- The retry loop on an always-raising provider fails with that error. -/
theorem execute_with_retry_const_error (e : String) (max_retries : Nat) :
    (execute_with_retry (fun _ => Except.error e) max_retries).outcome
      = Except.error e :=
  retryGo_const_error e max_retries max_retries 0 (by omega)

/-- `responseOf` always yields a returned response, never a raised exception. -/
theorem responseOf_is_response (F : Option ExecResult) (L : Option String) :
    ∃ resp, responseOf F L = RobustResult.response resp := by
  cases F with
  | none =>
    exact ⟨{ noProvidersResponse with model_used := L },
      by simp [responseOf, noProvidersResponse]⟩
  | some r =>
    cases hr : r.outcome with
    | error e =>
      exact ⟨failureResponse e L, by simp [responseOf, hr, failureResponse]⟩
    | ok pr =>
      exact ⟨successResponse pr L, by simp [responseOf, hr, successResponse]⟩

/-! ### main.py — the `/query` handler

`process_query` (src/backend/main.py, lines 373–536).  The whole body runs in
a `try` block whose `except Exception` clause returns a `success = false`
`QueryResponse` carrying the exception text, so every raised error is caught.
The handler first selects a Portia instance from the requested tool registry
(raising `"No Portia instances available"` when none exists), then validates
the message (raising `"Empty message provided"` when blank), runs the query,
and polls: a pending clarification yields a `requires_user_action` response;
a `COMPLETE` state goes through `extract_result_from_run`; `FAILED` and all
other terminal/timeout states yield failure responses.  An instance is
modelled by the behaviour of its `run` call on this query: an exception text
or the (already terminal) run object; `runCalls` counts `run` invocations. -/

/-- The `ClarificationModel` pydantic response model of main.py. -/
structure ClarificationModel where
  type : String
  message : String
  details : List (String × String)
  action_required : String
deriving DecidableEq, Repr

/-- Build a `ClarificationModel` from a clarification dict with `.get`
defaults (main.py, lines 444–449). -/
def mkClarificationModel (c : PyClar) : ClarificationModel :=
  { type := c.type.getD "user_input"
    message := c.message.getD "User action required"
    details := c.details.getD []
    action_required := c.action_required.getD "Please provide the required input" }

/-- `QueryResponse` of main.py (execution time omitted — wall-clock time is
out of the embedding's scope). -/
structure MainQueryResponse where
  success : Bool
  result : Option String := none
  tools_used : Option (List String) := none
  error : Option String := none
  tool_registry_used : Option String := none
  clarification : Option ClarificationModel := none
  requires_user_action : Bool := false
deriving DecidableEq, Repr

/-- The `/query` handler's observable behaviour: its response plus the number
of `portia_instance.run` invocations. -/
structure MainTrace where
  response : MainQueryResponse
  runCalls : Nat
deriving DecidableEq, Repr

/-- The shared fallback of instance selection (main.py, lines 394–417): cloud
if available, else open source, else raise `"No Portia instances available"`;
the `default`/`combined` branch and the final `else` branch are identical. -/
def pickAny (cloud os : Option (Except String PlanRun)) :
    Except String (Except String PlanRun × String) :=
  match cloud with
  | some c => .ok (c, "cloud")
  | none =>
    match os with
    | some o => .ok (o, "open_source")
    | none => .error "No Portia instances available"

/-- Instance selection (main.py, lines 386–417): `"cloud"` and
`"open_source"` pick their instance when available; every other case
(including a requested registry whose instance is missing) falls through to
the cloud-then-open-source fallback. -/
def selectInstance (cloud os : Option (Except String PlanRun))
    (registry : String) : Except String (Except String PlanRun × String) :=
  if registry = "cloud" then
    match cloud with
    | some c => .ok (c, "cloud")
    | none => pickAny cloud os
  else if registry = "open_source" then
    match os with
    | some o => .ok (o, "open_source")
    | none => pickAny cloud os
  else pickAny cloud os

/-- `process_query` of src/backend/main.py (lines 373–536): the `/query`
handler over the two optional instances (each given by its `run` behaviour on
this query), the request message and the requested tool registry. -/
def process_query_main (cloud os : Option (Except String PlanRun))
    (message registry : String) : MainTrace :=
  match selectInstance cloud os registry with
  | .error e => { response := { success := false, error := some e }, runCalls := 0 }
  | .ok (beh, registry_used) =>
    if isBlank message then
      { response := { success := false, error := some "Empty message provided" },
        runCalls := 0 }
    else
      match beh with
      | .error e =>
        { response := { success := false, error := some e }, runCalls := 1 }
      | .ok run =>
        match run.clarifications with
        | clar :: _ =>
          { response := { success := false,
                          clarification := some (mkClarificationModel clar),
                          requires_user_action := true,
                          tool_registry_used := some registry_used },
            runCalls := 1 }
        | [] =>
          if run.state = "COMPLETE" then
            match extract_result_from_run run with
            | some t =>
              { response := { success := true, result := some t,
                              tools_used := extract_tools_used run,
                              tool_registry_used := some registry_used },
                runCalls := 1 }
            | none =>
              { response := { success := false,
                              error := some "No result found in completed run" },
                runCalls := 1 }
          else if run.state = "FAILED" then
            { response := { success := false,
                            error := some ("Run failed: "
                              ++ run.error.getD "Unknown error") },
              runCalls := 1 }
          else
            { response := { success := false,
                            error := some ("Run timeout or cancelled (state: "
                              ++ run.state ++ ")") },
              runCalls := 1 }

/-- Instance selection either fails with the no-instances error (exactly when
neither instance exists) or picks an instance. -/
theorem selectInstance_total (cloud os : Option (Except String PlanRun))
    (registry : String) :
    (cloud = none ∧ os = none ∧
      selectInstance cloud os registry = .error "No Portia instances available") ∨
    (∃ beh reg, selectInstance cloud os registry = .ok (beh, reg)) := by
  cases cloud with
  | some c =>
    right
    by_cases h1 : registry = "cloud"
    · exact ⟨c, "cloud", by simp [selectInstance, h1]⟩
    · by_cases h2 : registry = "open_source"
      · cases os with
        | some o => exact ⟨o, "open_source", by simp [selectInstance, h1, h2]⟩
        | none => exact ⟨c, "cloud", by simp [selectInstance, pickAny, h1, h2]⟩
      · exact ⟨c, "cloud", by simp [selectInstance, pickAny, h1, h2]⟩
  | none =>
    cases os with
    | some o =>
      right
      by_cases h1 : registry = "cloud"
      · exact ⟨o, "open_source", by simp [selectInstance, pickAny, h1]⟩
      · by_cases h2 : registry = "open_source"
        · exact ⟨o, "open_source", by simp [selectInstance, h1, h2]⟩
        · exact ⟨o, "open_source", by simp [selectInstance, pickAny, h1, h2]⟩
    | none =>
      left
      refine ⟨rfl, rfl, ?_⟩
      by_cases h1 : registry = "cloud" <;> by_cases h2 : registry = "open_source" <;>
        simp [selectInstance, pickAny, h1, h2]

/-- C4 (confirmed): a run that reaches `COMPLETE` but yields no extracted
text produces a `success = false` response with the `"No result found in
completed run"` error, and the handler submits exactly one provider run — no
retry and no fallback for that query. -/
theorem c4_complete_without_result (os : Option (Except String PlanRun))
    (run : PlanRun) (msg : String) (hmsg : isBlank msg = false)
    (hclar : run.clarifications = []) (hstate : run.state = "COMPLETE")
    (hex : extract_result_from_run run = none) :
    process_query_main (some (Except.ok run)) os msg "combined"
      = { response := { success := false,
                        error := some "No result found in completed run" },
          runCalls := 1 } := by
  simp [process_query_main, selectInstance, pickAny, hmsg, hclar, hstate, hex]

/-- A run object that completed but carries nothing extractable. -/
def c4Run : PlanRun :=
  { result := none, outputs := none, state := "COMPLETE",
    clarifications := [], error := none }

/-- C4 (witness): the completed-but-empty run yields the no-result failure
after a single provider run. -/
theorem c4_complete_without_result_witness :
    process_query_main (some (Except.ok c4Run)) none "hi" "combined"
      = { response := { success := false,
                        error := some "No result found in completed run" },
          runCalls := 1 } :=
  c4_complete_without_result none c4Run "hi" (by decide) rfl rfl rfl

/-- C5 (confirmed): a blank (empty or whitespace-only) query is rejected
before any provider run: the main handler never invokes `run` and — whenever
an instance is configured — answers with the `"Empty message provided"`
failure; the robust handler raises the 400 `"Query cannot be empty"` error
with zero calls on either provider. -/
theorem c5_blank_query_guard (cloud os : Option (Except String PlanRun))
    (registry : String) (pm po : Option Provider) (pref : Option String)
    (msg : String) (h : isBlank msg = true) :
    (process_query_main cloud os msg registry).runCalls = 0 ∧
    ((cloud.isSome ∨ os.isSome) →
      process_query_main cloud os msg registry
        = { response := { success := false,
                          error := some "Empty message provided" },
            runCalls := 0 }) ∧
    process_query_robust pm po msg pref
      = { result := .httpError 400 "Query cannot be empty",
          mistral_calls := 0, openai_calls := 0 } := by
  have hrob : process_query_robust pm po msg pref
      = { result := .httpError 400 "Query cannot be empty",
          mistral_calls := 0, openai_calls := 0 } := by
    simp [process_query_robust, h]
  rcases selectInstance_total cloud os registry with ⟨hc, ho, hsel⟩ | ⟨beh, reg, hsel⟩
  · refine ⟨?_, ?_, hrob⟩
    · simp [process_query_main, hsel]
    · intro hav
      subst hc; subst ho
      simp at hav
  · refine ⟨?_, ?_, hrob⟩
    · simp [process_query_main, hsel, h]
    · intro _
      simp [process_query_main, hsel, h]

/-- C5 (witness): the whitespace-only query `" "` is rejected by both
handlers with zero provider runs. -/
theorem c5_blank_query_guard_witness :
    (process_query_main (some (Except.ok c4Run)) none " " "combined").runCalls = 0 ∧
    process_query_main (some (Except.ok c4Run)) none " " "combined"
      = { response := { success := false,
                        error := some "Empty message provided" },
          runCalls := 0 } ∧
    process_query_robust none none " " (some "auto")
      = { result := .httpError 400 "Query cannot be empty",
          mistral_calls := 0, openai_calls := 0 } := by
  have h := c5_blank_query_guard (some (Except.ok c4Run)) none "combined"
    none none (some "auto") " " (by decide)
  exact ⟨h.1, h.2.1 (Or.inl rfl), h.2.2⟩

/-- C8 (counterexample): the robust `/api/query` handler does not return a
structured outcome on a blank query — it raises `HTTPException(400)`, which
propagates past the handler, contradicting the claim that every request gets
a `success = false` outcome object and no exception. -/
theorem c8_robust_raises_counterexample :
    (process_query_robust none none " " (some "auto")).result
      = RobustResult.httpError 400 "Query cannot be empty" := by
  have h : isBlank " " = true := by decide
  simp [process_query_robust, h]

/-- C8 (amended): the main.py handler catches every exception raised during
query processing — a provider `run` that raises any error text `e` yields a
returned `success = false` response carrying `e` — and the robust handler
returns a structured response for every non-blank query, reporting
provider-level errors as `success = false` outcomes with the diagnostic text;
only its blank-query validation raises an `HTTPException(400)` instead. -/
theorem c8_exceptions_contained :
    (∀ (os : Option (Except String PlanRun)) (msg e : String),
      isBlank msg = false →
      process_query_main (some (Except.error e)) os msg "combined"
        = { response := { success := false, error := some e }, runCalls := 1 }) ∧
    (∀ (pm po : Option Provider) (q : String) (pref : Option String),
      isBlank q = false →
      ∃ resp, (process_query_robust pm po q pref).result
        = RobustResult.response resp) ∧
    (∀ (q e : String), isBlank q = false →
      (process_query_robust (some (fun _ => Except.error e)) none q
          (some "auto")).result
        = RobustResult.response (failureResponse e (some "mistral"))) := by
  refine ⟨?_, ?_, ?_⟩
  · intro os msg e hmsg
    simp [process_query_main, selectInstance, pickAny, hmsg]
  · intro pm po q pref hq
    obtain ⟨resp, hresp⟩ := responseOf_is_response
      (finalResult (mistralAttempt pm pref)
        (openaiAttempt po pref (mistralAttempt pm pref)))
      (modelUsedLabel (mistralAttempt pm pref)
        (openaiAttempt po pref (mistralAttempt pm pref)))
    exact ⟨resp, by simp [process_query_robust, hq, hresp]⟩
  · intro q e hq
    have herr := execute_with_retry_const_error e 2
    simp [process_query_robust, hq, mistralAttempt, openaiAttempt, needsFallback,
      ExecResult.success, herr, finalResult, modelUsedLabel, responseOf,
      attemptCalls, failureResponse]

/-- C8 (witness): a raising provider run in the main handler is reported as a
caught failure; a failing provider in the robust handler yields a returned
`success = false` response with the raw error text. -/
theorem c8_exceptions_contained_witness :
    process_query_main (some (Except.error "kaboom")) none "hi" "combined"
      = { response := { success := false, error := some "kaboom" },
          runCalls := 1 } ∧
    (∃ resp, (process_query_robust none none "hi" none).result
      = RobustResult.response resp) ∧
    (process_query_robust (some (fun _ => Except.error "kaboom")) none "hi"
        (some "auto")).result
      = RobustResult.response (failureResponse "kaboom" (some "mistral")) := by
  refine ⟨?_, ?_, ?_⟩
  · exact c8_exceptions_contained.1 none "hi" "kaboom" (by decide)
  · exact c8_exceptions_contained.2.1 none none "hi" none (by decide)
  · exact c8_exceptions_contained.2.2 "hi" "kaboom" (by decide)
